import Mathlib

/-!
Verification of the ton-liteclient request/response RPC layer.

This file gives a shallow embedding of `src/src/lib.rs`: the envelope
codec built on the TL wire format (`tl_proto`), the receive step with its
8192-byte bound, the `lite_query` pipeline, the `connect` flow, and the
typed request catalog (the façade methods at lines 105-207).

Bytes are modelled as lists of naturals; every value the embedding itself
writes is below 256. Fallible steps return `Option`/`Except`; the
unwrap/panic branches of the Rust code are modelled by an explicit
`abort` outcome.

The file `scheme.rs` of the repository (the TL scheme declarations) and
`config.rs` (the global-config struct) are not part of the sources at
hand; the definitions that stand in for them are marked
"Modelled from the spec" and follow the spec's wire-format section (§6)
and the usage visible in `lib.rs`.
-/

/-- Byte strings on the wire. -/
abbrev Bytes := List Nat

/-- Little-endian encoding of `n` in `w` bytes, as `tl_proto` writes
fixed-width integers. -/
def natLE : Nat → Nat → Bytes
  | 0, _ => []
  | w + 1, n => n % 256 :: natLE w (n / 256)

/-- Number of zero padding bytes bringing a field of `n` bytes up to a
multiple of four. -/
def pad4Len (n : Nat) : Nat := (4 - n % 4) % 4

/-- TL `bytes` serialization: a one-byte length for data shorter than 254
bytes, otherwise the 254 marker followed by a 3-byte little-endian
length; then the data and zero padding to a multiple of four bytes. -/
def tlWriteBytes (b : Bytes) : Bytes :=
  if b.length < 254 then
    b.length :: (b ++ List.replicate (pad4Len (b.length + 1)) 0)
  else
    254 :: (natLE 3 b.length ++ (b ++ List.replicate (pad4Len (b.length + 4)) 0))

/-- Length reconstructed from the three bytes of a long TL `bytes` length
field. -/
def tlBigLen (b0 b1 b2 : Nat) : Nat := b0 + 256 * b1 + 65536 * b2

/-- Reader core shared by the two TL `bytes` length forms: `n` data bytes
followed by `pad` padding bytes; fails when fewer bytes are available. -/
def tlReadLen (n pad : Nat) (rest : Bytes) : Option (Bytes × Bytes) :=
  if rest.length < n + pad then none
  else some (rest.take n, rest.drop (n + pad))

/-- Reader for the long form of TL `bytes` (after the 254 marker). -/
def tlReadBig : Bytes → Option (Bytes × Bytes)
  | b0 :: b1 :: b2 :: rest2 =>
    tlReadLen (tlBigLen b0 b1 b2) (pad4Len (tlBigLen b0 b1 b2 + 4)) rest2
  | _ => none

/-- TL `bytes` deserialization, the reader counterpart of
`tlWriteBytes`. -/
def tlReadBytes : Bytes → Option (Bytes × Bytes)
  | [] => none
  | len :: rest =>
    if len < 254 then tlReadLen len (pad4Len (len + 1)) rest
    else if len = 254 then tlReadBig rest
    else none

/-- Modelled from the spec: the outer ADNL message of `scheme.rs` (not
among the sources at hand), restricted to the two variants `lite_query`
touches — the "query" variant `{correlation_id: 32 bytes, query: bytes}`
and the "answer" variant `{correlation_id: 32 bytes, answer: bytes}`
(spec §6). -/
inductive Message
  | query (queryId : Bytes) (query : Bytes)
  | answer (queryId : Bytes) (answer : Bytes)
  deriving DecidableEq

/-- Modelled from the spec: the wire tag of the outer "query" variant.
The exact constructor id lives in `scheme.rs`; only its fixed four-byte
width and its distinctness from the answer tag matter to the claims. -/
def tagAdnlQuery : Nat := 0xb48bf97a

/-- Modelled from the spec: the wire tag of the outer "answer" variant. -/
def tagAdnlAnswer : Nat := 0x0fac8416

/-- Serializer for the outer message: four-byte tag, the raw 32-byte
correlation token, then the payload as TL `bytes`. -/
def serializeMessage : Message → Bytes
  | .query qid q => natLE 4 tagAdnlQuery ++ (qid ++ tlWriteBytes q)
  | .answer qid a => natLE 4 tagAdnlAnswer ++ (qid ++ tlWriteBytes a)

/-- Reader for the body shared by both outer variants: a 32-byte
correlation token followed by the payload as TL `bytes`. -/
def readEnvelopeBody (b : Bytes) : Option (Bytes × Bytes) :=
  if 32 ≤ b.length then
    match tlReadBytes (b.drop 32) with
    | some (payload, _) => some (b.take 32, payload)
    | none => none
  else none

/-- Deserializer for the outer message, as `tl_proto::deserialize` at
lib.rs line 96 behaves on the modelled scheme: dispatch on the leading
four-byte tag, reject unknown tags and truncated bodies. -/
def deserializeMessage (b : Bytes) : Option Message :=
  if b.take 4 = natLE 4 tagAdnlQuery then
    match readEnvelopeBody (b.drop 4) with
    | some (qid, payload) => some (.query qid payload)
    | none => none
  else if b.take 4 = natLE 4 tagAdnlAnswer then
    match readEnvelopeBody (b.drop 4) with
    | some (qid, payload) => some (.answer qid payload)
    | none => none
  else none

/-- Modelled from the spec: the wire tag of the inner one-field query
wrapper `{data: bytes}` of `scheme.rs` (spec §6). -/
def tagLiteQuery : Nat := 0x798c06df

/-- Serializer of the inner one-field wrapper `{data: bytes}` holding the
serialized request (the `scheme::Query` value built at lib.rs line 86). -/
def serializeQuery (data : Bytes) : Bytes :=
  natLE 4 tagLiteQuery ++ tlWriteBytes data

/-- Reader recovering the `data` field from a serialized inner query
wrapper. -/
def unwrapQuery (b : Bytes) : Option Bytes :=
  if b.take 4 = natLE 4 tagLiteQuery then
    match tlReadBytes (b.drop 4) with
    | some (d, _) => some d
    | none => none
  else none

/-- The encode step of `lite_query` (lib.rs lines 84-87): wrap the
serialized request in the inner one-field wrapper, then in the outer
"query" variant together with the correlation token. The token is drawn
by `rand::random()` in the code; here it is a parameter ranging over all
32-byte values. -/
def encodeEnvelope (token req : Bytes) : Bytes :=
  serializeMessage (.query token (serializeQuery req))

/-- The decode step of `lite_query` (lib.rs lines 96-100): deserialize
the outer message and extract the answer payload; any other shape hits an
unwrap or the `panic` branch, modelled as `none`. -/
def answerPayload (env : Bytes) : Option Bytes :=
  match deserializeMessage env with
  | some (.answer _ a) => some a
  | _ => none

/-- Decode failures of `tl_proto` (`TlError`): no variant carries a
server-reported code or message. -/
inductive TlError
  | unexpectedEof
  | unknownConstructor
  deriving DecidableEq

/-- Failure reported by the modelled session receive. -/
inductive RecvError
  | transport
  | oversize
  deriving DecidableEq

/-- Outcome of one `lite_query` call: the `Ok` value of the final typed
deserialization, its `Err` value, or a process abort (the code's
unwrap/panic branches). -/
inductive QueryOutcome (U : Type)
  | ok (u : U)
  | decodeErr (e : TlError)
  | abort
  deriving DecidableEq

/-- Modelled from the spec: the secure-session receive contract (§6).
The session either reports a transport failure or delivers an envelope
with a declared size; a declared size above the bound is rejected with an
error. The bound check itself lives in the external `adnl` crate; the
core passes the bound as the const argument at lib.rs line 93. -/
def receiveStep (maxLen : Nat) (recv : Except Unit (Nat × Bytes)) : Except RecvError Bytes :=
  match recv with
  | .error _ => .error .transport
  | .ok (declared, data) => if maxLen < declared then .error .oversize else .ok data

/-- The `lite_query` pipeline (lib.rs lines 79-103): build and send the
query envelope, receive with bound 8192, deserialize the outer message
unwrapping failures (abort), extract the answer payload into the caller's
buffer — `panic` on any other variant (abort) — and finally run the typed
deserializer on that buffer, returning its result. The returned pair is
(outcome, final contents of the caller's `response` buffer). -/
def liteQuery {U : Type} (decU : Bytes → Except TlError U) (token req : Bytes)
    (send : Bytes → Bool) (recv : Except Unit (Nat × Bytes)) (buf : Bytes) :
    QueryOutcome U × Bytes :=
  if send (encodeEnvelope token req) then
    match receiveStep 8192 recv with
    | .error _ => (.abort, buf)
    | .ok env =>
      match deserializeMessage env with
      | some (.answer _ a) =>
        match decU a with
        | .ok u => (.ok u, a)
        | .error e => (.decodeErr e, a)
      | _ => (.abort, env)
  else (.abort, buf)

/-- Generic boxed-type reader of `tl_proto`: check the leading four-byte
tag of the expected type, otherwise fail with `unknownConstructor`. -/
def decodeBoxed {α : Type} (tag : Nat) (body : Bytes → Except TlError α) (b : Bytes) :
    Except TlError α :=
  if b.length < 4 then .error .unexpectedEof
  else if b.take 4 = natLE 4 tag then body (b.drop 4)
  else .error .unknownConstructor

/-- Fixed-width 32-bit little-endian integer reader. -/
def readNat32 : Bytes → Except TlError Nat
  | x0 :: x1 :: x2 :: x3 :: _ => .ok (x0 + 256 * x1 + 65536 * x2 + 16777216 * x3)
  | _ => .error .unexpectedEof

/-- Modelled from the spec: the wire tag of the `CurrentTime` success
type of `scheme.rs` (a representative expected success type). -/
def tagCurrentTime : Nat := 0x16ad5a34

/-- Modelled from the spec: the `CurrentTime{now}` success payload of
`scheme.rs`. -/
structure CurrentTime where
  now : Nat
  deriving DecidableEq

/-- Typed deserializer for `CurrentTime`, standing in for the
`TlRead` instance `lite_query` is instantiated with at lib.rs line 102. -/
def decodeCurrentTime (b : Bytes) : Except TlError CurrentTime :=
  decodeBoxed tagCurrentTime (fun r => Except.map CurrentTime.mk (readNat32 r)) b

/-- Modelled from the spec: the wire tag of the server-error payload
`{code:int32, message:string}` (spec §6). -/
def tagLiteError : Nat := 0xbba9e148

/-- Modelled from the spec: serializer of the server-error payload
`{code:int32, message:string}`; the message is written as TL `bytes`. -/
def serializeError (code : Int) (message : Bytes) : Bytes :=
  natLE 4 tagLiteError ++ (natLE 4 (code % 4294967296).toNat ++ tlWriteBytes message)

/-- A fixed all-zero 32-byte correlation token used in concrete runs. -/
def zeroToken : Bytes := List.replicate 32 0

/-- A second, distinct 32-byte correlation token used in concrete runs. -/
def oneToken : Bytes := List.replicate 32 1

/-- ASCII bytes of the message "not found". -/
def notFoundMessage : Bytes := [110, 111, 116, 32, 102, 111, 117, 110, 100]

/-- Concrete server-error payload `{code: -400, message: "not found"}`. -/
def errorPayload : Bytes := serializeError (-400) notFoundMessage

/-- Concrete answer envelope carrying the server-error payload. -/
def errorAnswerEnvelope : Bytes := serializeMessage (.answer zeroToken errorPayload)

/-- Concrete success payload `CurrentTime{now: 1700000000}`. -/
def currentTimePayload : Bytes := natLE 4 tagCurrentTime ++ natLE 4 1700000000

/-- Concrete answer envelope carrying the `CurrentTime` payload. -/
def timeAnswerEnvelope : Bytes := serializeMessage (.answer zeroToken currentTimePayload)

/-- Concrete received buffer whose outer message is the "query" variant
rather than the "answer" variant. -/
def queryEnvelopeSample : Bytes := serializeMessage (.query zeroToken [5, 6])

/-- Session whose send always succeeds. -/
def alwaysSend : Bytes → Bool := fun _ => true

/-- Session whose send reports a transport failure. -/
def neverSend : Bytes → Bool := fun _ => false

/-- Modelled from the spec: `scheme::BlockIdExt` (opaque here — its fields
do not bear on the catalog claim). -/
structure BlockIdExt where
  raw : Nat
  deriving DecidableEq

/-- Modelled from the spec: `scheme::BlockId` (opaque here). -/
structure BlockId where
  raw : Nat
  deriving DecidableEq

/-- Modelled from the spec: `scheme::AccountId` (opaque here). -/
structure AccountId where
  raw : Nat
  deriving DecidableEq

/-- Modelled from the spec: `scheme::Int256`, a 256-bit value (opaque
here). -/
structure Int256 where
  raw : Nat
  deriving DecidableEq

/-- Modelled from the spec: `scheme::TransactionId3` (opaque here). -/
structure TransactionId3 where
  raw : Nat
  deriving DecidableEq

/-- Modelled from the spec: `scheme::True`, the TL unit flag type. -/
inductive TlTrue
  | mk
  deriving DecidableEq

/-- The closed set of request kinds of the typed request catalog
(lib.rs lines 105-207). -/
inductive RequestKind
  | getMasterchainInfo
  | getMasterchainInfoExt
  | getTime
  | getVersion
  | getBlock
  | getState
  | getBlockHeader
  | sendMessage
  | getAccountState
  | runSmcMethod
  | getShardInfo
  | getAllShardsInfo
  | getOneTransaction
  | getTransactions
  | lookupBlock
  | listBlockTransactions
  | getBlockProof
  | getConfigAll
  | getConfigParams
  | getValidatorStats
  deriving DecidableEq

/-- Names of success types appearing in the code's façade signatures and
in the spec's catalog table. `sendMsgStatus` is the code's
`scheme::SendMsgStatus`; `sendStatus` is the name "SendStatus" the spec's
table uses; `partBlockProof` stands for `scheme::PartialBlockProof`. -/
inductive TyName
  | masterchainInfo
  | masterchainInfoExt
  | currentTime
  | version
  | blockData
  | blockState
  | blockHeader
  | sendMsgStatus
  | sendStatus
  | accountState
  | runMethodResult
  | shardInfo
  | allShardsInfo
  | transactionInfo
  | transactionList
  | blockTransactions
  | partBlockProof
  | configInfo
  | validatorStats
  deriving DecidableEq

/-- Success type named by each façade in the code: the return types of
the methods at lib.rs lines 105-207. -/
def codeSuccessType : RequestKind → TyName
  | .getMasterchainInfo => .masterchainInfo
  | .getMasterchainInfoExt => .masterchainInfoExt
  | .getTime => .currentTime
  | .getVersion => .version
  | .getBlock => .blockData
  | .getState => .blockState
  | .getBlockHeader => .blockHeader
  | .sendMessage => .sendMsgStatus
  | .getAccountState => .accountState
  | .runSmcMethod => .runMethodResult
  | .getShardInfo => .shardInfo
  | .getAllShardsInfo => .allShardsInfo
  | .getOneTransaction => .transactionInfo
  | .getTransactions => .transactionList
  | .lookupBlock => .blockHeader
  | .listBlockTransactions => .blockTransactions
  | .getBlockProof => .partBlockProof
  | .getConfigAll => .configInfo
  | .getConfigParams => .configInfo
  | .getValidatorStats => .validatorStats

/-- The catalog table exactly as the spec's §4.3 words it
(request → success type), including its entry "SendMessage→SendStatus". -/
def specSuccessType : RequestKind → TyName
  | .getMasterchainInfo => .masterchainInfo
  | .getMasterchainInfoExt => .masterchainInfoExt
  | .getTime => .currentTime
  | .getVersion => .version
  | .getBlock => .blockData
  | .getState => .blockState
  | .getBlockHeader => .blockHeader
  | .sendMessage => .sendStatus
  | .getAccountState => .accountState
  | .runSmcMethod => .runMethodResult
  | .getShardInfo => .shardInfo
  | .getAllShardsInfo => .allShardsInfo
  | .getOneTransaction => .transactionInfo
  | .getTransactions => .transactionList
  | .lookupBlock => .blockHeader
  | .listBlockTransactions => .blockTransactions
  | .getBlockProof => .partBlockProof
  | .getConfigAll => .configInfo
  | .getConfigParams => .configInfo
  | .getValidatorStats => .validatorStats

/-- The amended catalog table: as the spec's, with SendMessage mapped to
`SendMsgStatus`, the code's name for the send-status response. -/
def specSuccessTypeAmended : RequestKind → TyName
  | .sendMessage => .sendMsgStatus
  | k => specSuccessType k

/-- The request values the façades build: one constructor per scheme
request struct, carrying exactly the fields the code supplies. -/
inductive RequestValue
  | getMasterchainInfo
  | getMasterchainInfoExt
  | getTime
  | getVersion
  | getBlock (id : BlockIdExt)
  | getState (id : BlockIdExt)
  | getBlockHeader (id : BlockIdExt) (mode : Unit)
  | sendMessage (body : Bytes)
  | getAccountState (id : BlockIdExt) (account : AccountId)
  | runSmcMethod (mode : Unit) (id : BlockIdExt) (account : AccountId)
      (methodId : Int) (params : Bytes)
  | getShardInfo (id : BlockIdExt) (workchain : Int) (shard : Int) (exact : Bool)
  | getAllShardsInfo (id : BlockIdExt)
  | getOneTransaction (id : BlockIdExt) (account : AccountId) (lt : Int)
  | getTransactions (count : Int) (account : AccountId) (lt : Int) (hash : Int256)
  | lookupBlock (mode : Unit) (id : BlockId) (lt : Option Int) (utime : Option Int)
  | listBlockTransactions (id : BlockIdExt) (mode : Unit) (count : Int)
      (after : Option TransactionId3) (reverseOrder : Option TlTrue)
      (wantProof : Option TlTrue)
  | getBlockProof (mode : Unit) (knownBlock : BlockIdExt) (targetBlock : Option BlockIdExt)
  | getConfigAll (mode : Unit) (id : BlockIdExt)
  | getConfigParams (mode : Unit) (id : BlockIdExt) (paramList : List Int)
  | getValidatorStats (mode : Unit) (id : BlockIdExt) (limit : Int)
      (startAfter : Option Int256) (modifiedAfter : Option Int)
  deriving DecidableEq

/-- Façade lib.rs:105 — what it hands to the generic query primitive:
its request value and the success type it names. -/
def get_masterchain_info : RequestValue × TyName :=
  (.getMasterchainInfo, .masterchainInfo)

/-- Façade lib.rs:110. -/
def get_masterchain_info_ext : RequestValue × TyName :=
  (.getMasterchainInfoExt, .masterchainInfoExt)

/-- Façade lib.rs:115. -/
def get_time : RequestValue × TyName :=
  (.getTime, .currentTime)

/-- Façade lib.rs:120. -/
def get_version : RequestValue × TyName :=
  (.getVersion, .version)

/-- Façade lib.rs:125. -/
def get_block (id : BlockIdExt) : RequestValue × TyName :=
  (.getBlock id, .blockData)

/-- Façade lib.rs:130. -/
def get_state (id : BlockIdExt) : RequestValue × TyName :=
  (.getState id, .blockState)

/-- Façade lib.rs:135. -/
def get_block_header (id : BlockIdExt) (mode : Unit) : RequestValue × TyName :=
  (.getBlockHeader id mode, .blockHeader)

/-- Façade lib.rs:140. -/
def send_message (body : Bytes) : RequestValue × TyName :=
  (.sendMessage body, .sendMsgStatus)

/-- Façade lib.rs:145. -/
def get_account_state (id : BlockIdExt) (account : AccountId) : RequestValue × TyName :=
  (.getAccountState id account, .accountState)

/-- Façade lib.rs:150. -/
def run_smc_method (id : BlockIdExt) (account : AccountId) (methodId : Int)
    (params : Bytes) : RequestValue × TyName :=
  (.runSmcMethod () id account methodId params, .runMethodResult)

/-- Façade lib.rs:155. -/
def get_shard_info (id : BlockIdExt) (workchain : Int) (shard : Int)
    (exact : Bool) : RequestValue × TyName :=
  (.getShardInfo id workchain shard exact, .shardInfo)

/-- Façade lib.rs:160. -/
def get_all_shards_info (id : BlockIdExt) : RequestValue × TyName :=
  (.getAllShardsInfo id, .allShardsInfo)

/-- Façade lib.rs:165. -/
def get_one_transaction (id : BlockIdExt) (account : AccountId) (lt : Int) :
    RequestValue × TyName :=
  (.getOneTransaction id account lt, .transactionInfo)

/-- Façade lib.rs:170. -/
def get_transactions (count : Int) (account : AccountId) (lt : Int)
    (hash : Int256) : RequestValue × TyName :=
  (.getTransactions count account lt hash, .transactionList)

/-- Façade lib.rs:175. -/
def lookup_block (id : BlockId) (lt : Option Int) (utime : Option Int) :
    RequestValue × TyName :=
  (.lookupBlock () id lt utime, .blockHeader)

/-- Façade lib.rs:180. -/
def list_block_transactions (id : BlockIdExt) (count : Int)
    (after : Option TransactionId3) (reverseOrder : Option TlTrue)
    (wantProof : Option TlTrue) : RequestValue × TyName :=
  (.listBlockTransactions id () count after reverseOrder wantProof, .blockTransactions)

/-- Façade lib.rs:185. -/
def get_block_proof (knownBlock : BlockIdExt) (targetBlock : Option BlockIdExt) :
    RequestValue × TyName :=
  (.getBlockProof () knownBlock targetBlock, .partBlockProof)

/-- Façade lib.rs:190. -/
def get_config_all (id : BlockIdExt) : RequestValue × TyName :=
  (.getConfigAll () id, .configInfo)

/-- Façade lib.rs:195. -/
def get_config_params (id : BlockIdExt) (paramList : List Int) :
    RequestValue × TyName :=
  (.getConfigParams () id paramList, .configInfo)

/-- Façade lib.rs:204. -/
def get_validator_stats (id : BlockIdExt) (limit : Int)
    (startAfter : Option Int256) (modifiedAfter : Option Int) :
    RequestValue × TyName :=
  (.getValidatorStats () id limit startAfter modifiedAfter, .validatorStats)

/-- Modelled from the spec: the global config of `config.rs` (not among
the sources at hand); only its liteserver list matters here — lib.rs
line 71 reads `config.liteservers`. Servers are opaque. -/
structure ConfigGlobal where
  liteservers : List Nat
  deriving DecidableEq

/-- Outcome of one `connect` call: a connected client, an error returned
to the caller, or a process abort. -/
inductive ConnectOutcome
  | connected
  | errReturned
  | abort
  deriving DecidableEq

/-- The `connect` flow (lib.rs lines 69-78): a JSON parse failure returns
an error via `?`; the random server choice (`choose`, which yields `None`
exactly on an empty list) is unwrapped — an abort when the list is empty;
TCP connect and handshake failures return errors via `?`. The parse
result, the TCP outcome and the handshake outcome are parameters. -/
def connect (parsed : Except Unit ConfigGlobal) (tcpOk handshakeOk : Bool) :
    ConnectOutcome :=
  match parsed with
  | .error _ => .errReturned
  | .ok cfg =>
    if cfg.liteservers.isEmpty then .abort
    else if tcpOk then (if handshakeOk then .connected else .errReturned)
    else .errReturned

/-- `natLE` always produces exactly `w` bytes. -/
theorem natLE_length (w : Nat) : ∀ n, (natLE w n).length = w := by
  induction w with
  | zero => intro n; rfl
  | succ w ih => intro n; simp [natLE, ih]

/-- Explicit three-byte form of `natLE 3`. -/
theorem natLE_three (n : Nat) :
    natLE 3 n = [n % 256, n / 256 % 256, n / 256 / 256 % 256] := rfl

/-- Core reader identity: reading `p.length` data bytes and `k` padding
bytes from `p ++ R` with `R.length = k` recovers `p` exactly. -/
theorem tlReadLen_exact (p R : Bytes) (k : Nat) (hR : R.length = k) :
    tlReadLen p.length k (p ++ R) = some (p, []) := by
  unfold tlReadLen
  rw [if_neg (by simp [hR])]
  rw [List.take_left]
  rw [show p.length + k = (p ++ R).length by simp [hR]]
  rw [List.drop_length]

/-- Round trip of the TL `bytes` codec for data below the 3-byte length
bound. -/
theorem tlReadBytes_tlWriteBytes (b : Bytes) (h : b.length < 16777216) :
    tlReadBytes (tlWriteBytes b) = some (b, []) := by
  by_cases hs : b.length < 254
  · rw [tlWriteBytes, if_pos hs]
    simp only [tlReadBytes]
    rw [if_pos hs]
    exact tlReadLen_exact b _ _ (by simp)
  · rw [tlWriteBytes, if_neg hs]
    simp only [tlReadBytes]
    rw [if_pos trivial]
    rw [natLE_three]
    simp only [List.cons_append, List.nil_append]
    simp only [tlReadBig]
    have hn : tlBigLen (b.length % 256) (b.length / 256 % 256) (b.length / 256 / 256 % 256)
        = b.length := by
      unfold tlBigLen; omega
    rw [hn]
    exact tlReadLen_exact b _ _ (by simp)

/-- The envelope body reader inverts `qid ++ tlWriteBytes p` for a
32-byte token. -/
theorem readEnvelopeBody_eq (qid p : Bytes) (hq : qid.length = 32)
    (hp : p.length < 16777216) :
    readEnvelopeBody (qid ++ tlWriteBytes p) = some (qid, p) := by
  unfold readEnvelopeBody
  rw [if_pos (by simp [hq])]
  rw [List.drop_left' hq, tlReadBytes_tlWriteBytes p hp]
  rw [List.take_left' hq]

/-- Deserializing a serialized "query" message recovers it. -/
theorem deserializeMessage_query (qid q : Bytes) (hq : qid.length = 32)
    (hlen : q.length < 16777216) :
    deserializeMessage (serializeMessage (.query qid q)) = some (.query qid q) := by
  show deserializeMessage (natLE 4 tagAdnlQuery ++ (qid ++ tlWriteBytes q)) = _
  unfold deserializeMessage
  rw [List.take_left' (natLE_length 4 tagAdnlQuery), if_pos rfl]
  rw [List.drop_left' (natLE_length 4 tagAdnlQuery)]
  rw [readEnvelopeBody_eq qid q hq hlen]

/-- Deserializing a serialized "answer" message recovers it. -/
theorem deserializeMessage_answer (qid a : Bytes) (hq : qid.length = 32)
    (hlen : a.length < 16777216) :
    deserializeMessage (serializeMessage (.answer qid a)) = some (.answer qid a) := by
  show deserializeMessage (natLE 4 tagAdnlAnswer ++ (qid ++ tlWriteBytes a)) = _
  unfold deserializeMessage
  rw [List.take_left' (natLE_length 4 tagAdnlAnswer)]
  rw [if_neg (by decide)]
  rw [if_pos rfl]
  rw [List.drop_left' (natLE_length 4 tagAdnlAnswer)]
  rw [readEnvelopeBody_eq qid a hq hlen]

/-- `tlWriteBytes` adds at most 7 bytes of framing. -/
theorem tlWriteBytes_length_le (b : Bytes) : (tlWriteBytes b).length ≤ b.length + 7 := by
  unfold tlWriteBytes
  by_cases hs : b.length < 254
  · rw [if_pos hs]
    simp [pad4Len]
    omega
  · rw [if_neg hs]
    simp [pad4Len, natLE_length]
    omega

/-- C1: running `lite_query` on an answer envelope whose payload is the
server error `{code: -400, message: "not found"}`, with expected success
type `CurrentTime`: the final decode step returns the generic decode
failure `unknownConstructor` — no crash and no wrongly-typed success
value, but also not a ServerError value carrying the code and the message
(the result type of `lite_query` has no such value; `LiteError`, the
server-error wrapper of lib.rs line 40, is never constructed). -/
theorem c1_server_error_yields_decode_failure :
    liteQuery decodeCurrentTime zeroToken [] alwaysSend
        (.ok (60, errorAnswerEnvelope)) []
      = (.decodeErr .unknownConstructor, errorPayload) := by decide

/-- C2: a received buffer whose outer message is the "query" variant, or
one no variant of the codec recognizes, drives `lite_query` into the
unwrap/`panic` branches of lib.rs lines 96 and 101 — a process abort, not
a FormatError returned to the caller. -/
theorem c2_non_answer_aborts :
    (liteQuery decodeCurrentTime zeroToken [] alwaysSend
        (.ok (40, queryEnvelopeSample)) [] = (.abort, queryEnvelopeSample))
    ∧ (liteQuery decodeCurrentTime zeroToken [] alwaysSend
        (.ok (3, [1, 2, 3])) [] = (.abort, [1, 2, 3])) := by decide

/-- C3: a transport failure reported by the session's receive (first
conjunct) or send (second conjunct) drives `lite_query` into the
`.map_err(...).unwrap()` calls of lib.rs lines 90-94 — a process abort,
not a TransportError returned to the caller. -/
theorem c3_transport_failure_aborts :
    (liteQuery decodeCurrentTime zeroToken [] alwaysSend (.error ()) [9]
        = (.abort, [9]))
    ∧ (liteQuery decodeCurrentTime zeroToken [] neverSend
        (.ok (48, timeAnswerEnvelope)) [9] = (.abort, [9])) := by decide

/-- C4: the encode step emits the outer "query"-variant message whose
correlation token is exactly the 32-byte token supplied and whose query
field is exactly the inner one-field wrapper `{data: req}`; parsing the
envelope back witnesses the fixed field order, and unwrapping the inner
wrapper recovers the request bytes. -/
theorem c4_encode_structure (t req : Bytes) (ht : t.length = 32)
    (hr : req.length < 16777200) :
    deserializeMessage (encodeEnvelope t req) = some (.query t (serializeQuery req))
      ∧ unwrapQuery (serializeQuery req) = some req := by
  constructor
  · refine deserializeMessage_query t (serializeQuery req) ht ?_
    have hb := tlWriteBytes_length_le req
    simp only [serializeQuery, List.length_append, natLE_length]
    omega
  · unfold unwrapQuery serializeQuery
    rw [List.take_left' (natLE_length 4 tagLiteQuery), if_pos rfl]
    rw [List.drop_left' (natLE_length 4 tagLiteQuery)]
    rw [tlReadBytes_tlWriteBytes req (by omega)]

/-- C4 witness: the encode structure at the all-zero token and the
request bytes `[1, 2, 3]`. -/
theorem c4_encode_structure_witness :
    (zeroToken.length = 32 ∧ ([1, 2, 3] : Bytes).length < 16777200)
      ∧ (deserializeMessage (encodeEnvelope zeroToken [1, 2, 3])
            = some (.query zeroToken (serializeQuery [1, 2, 3]))
          ∧ unwrapQuery (serializeQuery [1, 2, 3]) = some [1, 2, 3]) :=
  ⟨⟨by decide, by decide⟩, c4_encode_structure zeroToken [1, 2, 3] (by decide) (by decide)⟩

/-- C5 counterexample: at `b = []`, the decode step applied to the
envelope the encode step produces does not yield payload `b` — the encode
step emits the "query" variant while the decode step of lib.rs lines
96-100 accepts only the "answer" variant. -/
theorem c5_roundtrip_fails_as_stated :
    answerPayload (encodeEnvelope zeroToken []) ≠ some [] := by decide

/-- C5 amended: the round trip holds for the direction the decode step
implements — for every payload `b` below the 3-byte length bound and any
32-byte token, decoding an answer envelope carrying `b` yields exactly
`b`, the token ignored. -/
theorem c5_answer_roundtrip (t b : Bytes) (ht : t.length = 32)
    (hb : b.length < 16777216) :
    answerPayload (serializeMessage (.answer t b)) = some b := by
  unfold answerPayload
  rw [deserializeMessage_answer t b ht hb]

/-- C5 witness: the answer-direction round trip at the all-zero token and
payload `[7, 8]`. -/
theorem c5_answer_roundtrip_witness :
    answerPayload (serializeMessage (.answer zeroToken [7, 8])) = some [7, 8] :=
  c5_answer_roundtrip zeroToken [7, 8] (by decide) (by decide)

/-- C6 counterexample: the send-message façade names the success type
`SendMsgStatus` (lib.rs line 140) while the spec's catalog table lists
"SendStatus" for it, so the table as written is not matched exactly. -/
theorem c6_send_message_name_differs :
    codeSuccessType RequestKind.sendMessage ≠ specSuccessType RequestKind.sendMessage := by
  decide

/-- C6 amended: every façade supplies exactly its request variant and
names exactly the success type of the catalog table amended at one entry:
SendMessage maps to `SendMsgStatus` (the code's name for the send-status
response) instead of the spec's "SendStatus"; all other entries are as
listed, and each façade is the pure mapping of its typed arguments into
the request value handed to the generic query primitive. -/
theorem c6_catalog_amended :
    (∀ k, codeSuccessType k = specSuccessTypeAmended k)
    ∧ get_masterchain_info = (.getMasterchainInfo, codeSuccessType .getMasterchainInfo)
    ∧ get_masterchain_info_ext
        = (.getMasterchainInfoExt, codeSuccessType .getMasterchainInfoExt)
    ∧ get_time = (.getTime, codeSuccessType .getTime)
    ∧ get_version = (.getVersion, codeSuccessType .getVersion)
    ∧ (∀ id, get_block id = (.getBlock id, codeSuccessType .getBlock))
    ∧ (∀ id, get_state id = (.getState id, codeSuccessType .getState))
    ∧ (∀ id m, get_block_header id m
        = (.getBlockHeader id m, codeSuccessType .getBlockHeader))
    ∧ (∀ body, send_message body = (.sendMessage body, codeSuccessType .sendMessage))
    ∧ (∀ id a, get_account_state id a
        = (.getAccountState id a, codeSuccessType .getAccountState))
    ∧ (∀ id a m p, run_smc_method id a m p
        = (.runSmcMethod () id a m p, codeSuccessType .runSmcMethod))
    ∧ (∀ id w s e, get_shard_info id w s e
        = (.getShardInfo id w s e, codeSuccessType .getShardInfo))
    ∧ (∀ id, get_all_shards_info id
        = (.getAllShardsInfo id, codeSuccessType .getAllShardsInfo))
    ∧ (∀ id a lt, get_one_transaction id a lt
        = (.getOneTransaction id a lt, codeSuccessType .getOneTransaction))
    ∧ (∀ c a lt h, get_transactions c a lt h
        = (.getTransactions c a lt h, codeSuccessType .getTransactions))
    ∧ (∀ id lt u, lookup_block id lt u
        = (.lookupBlock () id lt u, codeSuccessType .lookupBlock))
    ∧ (∀ id c a r w, list_block_transactions id c a r w
        = (.listBlockTransactions id () c a r w, codeSuccessType .listBlockTransactions))
    ∧ (∀ kb tb, get_block_proof kb tb
        = (.getBlockProof () kb tb, codeSuccessType .getBlockProof))
    ∧ (∀ id, get_config_all id = (.getConfigAll () id, codeSuccessType .getConfigAll))
    ∧ (∀ id pl, get_config_params id pl
        = (.getConfigParams () id pl, codeSuccessType .getConfigParams))
    ∧ (∀ id l sa ma, get_validator_stats id l sa ma
        = (.getValidatorStats () id l sa ma, codeSuccessType .getValidatorStats)) :=
  ⟨fun k => by cases k <;> rfl, rfl, rfl, rfl, rfl,
   fun _ => rfl, fun _ => rfl, fun _ _ => rfl, fun _ => rfl, fun _ _ => rfl,
   fun _ _ _ _ => rfl, fun _ _ _ _ => rfl, fun _ => rfl, fun _ _ _ => rfl,
   fun _ _ _ _ => rfl, fun _ _ _ => rfl, fun _ _ _ _ _ => rfl, fun _ _ => rfl,
   fun _ => rfl, fun _ _ => rfl, fun _ _ _ _ => rfl⟩


/-- C7: the receive step of `lite_query` uses the fixed bound 8192
(lib.rs line 93); any envelope with a larger declared size is rejected by
the session receive with an error and is never accepted — the pipeline
never parses it (it stops on the rejection, with the caller's buffer
untouched). -/
theorem c7_receive_bound {U : Type} (decU : Bytes → Except TlError U)
    (token req buf data : Bytes) (send : Bytes → Bool) (declared : Nat)
    (h : 8192 < declared) :
    receiveStep 8192 (.ok (declared, data)) = .error .oversize
      ∧ liteQuery decU token req send (.ok (declared, data)) buf = (.abort, buf) := by
  have hrs : receiveStep 8192 (.ok (declared, data)) = .error .oversize := by
    simp only [receiveStep]
    rw [if_pos h]
  refine ⟨hrs, ?_⟩
  unfold liteQuery
  rw [hrs]
  by_cases hsend : send (encodeEnvelope token req) <;> simp [hsend]

/-- C7 witness: the bound at declared size 8193. -/
theorem c7_receive_bound_witness :
    8192 < 8193
      ∧ (receiveStep 8192 (.ok (8193, [])) = .error .oversize
          ∧ liteQuery decodeCurrentTime zeroToken [] alwaysSend
              (.ok (8193, [])) [] = (.abort, [])) :=
  ⟨by decide,
   c7_receive_bound decodeCurrentTime zeroToken [] [] [] alwaysSend 8193 (by decide)⟩

/-- C8: the result of `lite_query` does not depend on the correlation
token of the received answer envelope — the pattern at lib.rs line 98
binds it with a wildcard — so two runs receiving answer envelopes that
differ only in that token return identical values and leave identical
buffers. -/
theorem c8_answer_token_ignored {U : Type} (decU : Bytes → Except TlError U)
    (token req buf a q1 q2 : Bytes) (send : Bytes → Bool) (declared : Nat)
    (h1 : q1.length = 32) (h2 : q2.length = 32) (ha : a.length < 16777216) :
    liteQuery decU token req send (.ok (declared, serializeMessage (.answer q1 a))) buf
      = liteQuery decU token req send
          (.ok (declared, serializeMessage (.answer q2 a))) buf := by
  unfold liteQuery
  by_cases hsend : send (encodeEnvelope token req)
  · simp only [hsend, if_true, receiveStep]
    by_cases hd : 8192 < declared
    · simp only [if_pos hd]
    · simp only [if_neg hd]
      rw [deserializeMessage_answer q1 a h1 ha, deserializeMessage_answer q2 a h2 ha]
  · simp [hsend]

/-- C8 witness: two received answer envelopes with the same payload `[7]`
but different tokens produce the same run. -/
theorem c8_answer_token_ignored_witness :
    liteQuery decodeCurrentTime zeroToken [] alwaysSend
        (.ok (48, serializeMessage (.answer zeroToken [7]))) []
      = liteQuery decodeCurrentTime zeroToken [] alwaysSend
        (.ok (48, serializeMessage (.answer oneToken [7]))) [] :=
  c8_answer_token_ignored decodeCurrentTime zeroToken [] [] [7] zeroToken oneToken
    alwaysSend 48 (by decide) (by decide) (by decide)

/-- C9: `connect` aborts (the `choose(..).unwrap()` of lib.rs line 71)
exactly when the parsed config's liteserver list is empty; invalid JSON
is returned as an error, and any run that does not abort had a non-empty
list whenever the config parsed. -/
theorem c9_empty_liteserver_list_aborts (cfg : ConfigGlobal)
    (p : Except Unit ConfigGlobal) (t h : Bool) :
    (cfg.liteservers = [] → connect (.ok cfg) t h = .abort)
      ∧ connect (.error ()) t h = .errReturned
      ∧ (connect p t h = .abort → ∃ c, p = .ok c ∧ c.liteservers = []) := by
  refine ⟨?_, rfl, ?_⟩
  · intro he
    unfold connect
    simp [he]
  · intro habort
    cases p with
    | error e => exact absurd habort (by simp [connect])
    | ok c =>
      refine ⟨c, rfl, ?_⟩
      by_cases hemp : c.liteservers.isEmpty
      · exact List.isEmpty_iff.mp hemp
      · exfalso
        cases t <;> cases h <;> simp [connect, hemp] at habort

/-- C9 witness: the empty-list config aborts; a parse failure returns an
error. -/
theorem c9_empty_liteserver_list_aborts_witness :
    connect (.ok ⟨[]⟩) true true = .abort
      ∧ connect (.error ()) true true = .errReturned :=
  ⟨(c9_empty_liteserver_list_aborts ⟨[]⟩ (.ok ⟨[]⟩) true true).1 rfl,
   (c9_empty_liteserver_list_aborts ⟨[]⟩ (.ok ⟨[]⟩) true true).2.1⟩


/-- Run of `lite_query` when the send itself fails. -/
theorem liteQuery_send_false {U : Type} (decU : Bytes → Except TlError U)
    (token req : Bytes) (send : Bytes → Bool) (recv : Except Unit (Nat × Bytes))
    (buf : Bytes) (hsend : send (encodeEnvelope token req) = false) :
    liteQuery decU token req send recv buf = (.abort, buf) := by
  unfold liteQuery
  simp [hsend]

/-- Run of `lite_query` when the receive reports an error. -/
theorem liteQuery_recv_error {U : Type} (decU : Bytes → Except TlError U)
    (token req : Bytes) (send : Bytes → Bool) (recv : Except Unit (Nat × Bytes))
    (buf : Bytes) (e : RecvError) (hsend : send (encodeEnvelope token req) = true)
    (hrs : receiveStep 8192 recv = .error e) :
    liteQuery decU token req send recv buf = (.abort, buf) := by
  unfold liteQuery
  simp only [hsend, if_true]
  rw [hrs]

/-- Run of `lite_query` when the received envelope does not deserialize. -/
theorem liteQuery_recv_none {U : Type} (decU : Bytes → Except TlError U)
    (token req : Bytes) (send : Bytes → Bool) (recv : Except Unit (Nat × Bytes))
    (buf env : Bytes) (hsend : send (encodeEnvelope token req) = true)
    (hrs : receiveStep 8192 recv = .ok env)
    (hdm : deserializeMessage env = none) :
    liteQuery decU token req send recv buf = (.abort, env) := by
  unfold liteQuery
  simp only [hsend, if_true]
  rw [hrs]
  show (match deserializeMessage env with
    | some (.answer _ a) =>
      match decU a with
      | .ok u => ((.ok u : QueryOutcome U), a)
      | .error e => (.decodeErr e, a)
    | _ => (.abort, env)) = _
  rw [hdm]

/-- Run of `lite_query` when the received envelope is the "query"
variant. -/
theorem liteQuery_recv_query {U : Type} (decU : Bytes → Except TlError U)
    (token req : Bytes) (send : Bytes → Bool) (recv : Except Unit (Nat × Bytes))
    (buf env qid q : Bytes) (hsend : send (encodeEnvelope token req) = true)
    (hrs : receiveStep 8192 recv = .ok env)
    (hdm : deserializeMessage env = some (.query qid q)) :
    liteQuery decU token req send recv buf = (.abort, env) := by
  unfold liteQuery
  simp only [hsend, if_true]
  rw [hrs]
  show (match deserializeMessage env with
    | some (.answer _ a) =>
      match decU a with
      | .ok u => ((.ok u : QueryOutcome U), a)
      | .error e => (.decodeErr e, a)
    | _ => (.abort, env)) = _
  rw [hdm]

/-- Run of `lite_query` when the received envelope is an "answer": the
payload lands in the buffer and the typed decoder decides the outcome. -/
theorem liteQuery_recv_answer {U : Type} (decU : Bytes → Except TlError U)
    (token req : Bytes) (send : Bytes → Bool) (recv : Except Unit (Nat × Bytes))
    (buf env qid a : Bytes) (hsend : send (encodeEnvelope token req) = true)
    (hrs : receiveStep 8192 recv = .ok env)
    (hdm : deserializeMessage env = some (.answer qid a)) :
    liteQuery decU token req send recv buf
      = (match decU a with
          | .ok u => ((.ok u : QueryOutcome U), a)
          | .error e => (.decodeErr e, a)) := by
  unfold liteQuery
  simp only [hsend, if_true]
  rw [hrs]
  show (match deserializeMessage env with
    | some (.answer _ a) =>
      match decU a with
      | .ok u => ((.ok u : QueryOutcome U), a)
      | .error e => (.decodeErr e, a)
    | _ => (.abort, env)) = _
  rw [hdm]

/-- C10: when `lite_query` succeeds, the caller's buffer has been
overwritten with exactly the inner answer payload of the received answer
envelope, the returned value is the typed decode of that same buffer, and
the buffer's prior contents influence nothing — the whole run is the same
for any two prior contents. -/
theorem c10_buffer_overwritten {U : Type} (decU : Bytes → Except TlError U)
    (token req : Bytes) (send : Bytes → Bool) (recv : Except Unit (Nat × Bytes))
    (buf buf2 : Bytes) (u : U)
    (h : (liteQuery decU token req send recv buf).1 = .ok u) :
    liteQuery decU token req send recv buf = liteQuery decU token req send recv buf2
      ∧ decU (liteQuery decU token req send recv buf).2 = .ok u
      ∧ ∃ env qid, receiveStep 8192 recv = .ok env
          ∧ deserializeMessage env
              = some (.answer qid (liteQuery decU token req send recv buf).2) := by
  by_cases hsend : send (encodeEnvelope token req)
  case neg =>
    rw [Bool.not_eq_true] at hsend
    rw [liteQuery_send_false decU token req send recv buf hsend] at h
    simp at h
  case pos =>
    cases hrs : receiveStep 8192 recv with
    | error e =>
      rw [liteQuery_recv_error decU token req send recv buf e hsend hrs] at h
      simp at h
    | ok env =>
      cases hdm : deserializeMessage env with
      | none =>
        rw [liteQuery_recv_none decU token req send recv buf env hsend hrs hdm] at h
        simp at h
      | some m =>
        cases m with
        | query qid q =>
          rw [liteQuery_recv_query decU token req send recv buf env qid q hsend hrs hdm] at h
          simp at h
        | answer qid a =>
          have heq := liteQuery_recv_answer decU token req send recv buf env qid a hsend hrs hdm
          have heq2 := liteQuery_recv_answer decU token req send recv buf2 env qid a hsend hrs hdm
          rw [heq] at h
          cases hdu : decU a with
          | error e =>
            rw [hdu] at h
            simp at h
          | ok v =>
            rw [hdu] at h
            simp only [Prod.fst] at h
            have hv : v = u := by simpa using h
            subst hv
            rw [heq, heq2, hdu]
            exact ⟨rfl, by simpa using hdu, env, qid, rfl, by simpa using hdm⟩

/-- C10 witness: a successful run decoding `CurrentTime{now:1700000000}`
with prior buffer contents `[9]` versus `[]`. -/
theorem c10_buffer_overwritten_witness :
    (liteQuery decodeCurrentTime zeroToken [] alwaysSend
        (.ok (48, timeAnswerEnvelope)) [9]).1 = .ok ⟨1700000000⟩
      ∧ (liteQuery decodeCurrentTime zeroToken [] alwaysSend
            (.ok (48, timeAnswerEnvelope)) [9]
          = liteQuery decodeCurrentTime zeroToken [] alwaysSend
            (.ok (48, timeAnswerEnvelope)) []
        ∧ decodeCurrentTime (liteQuery decodeCurrentTime zeroToken [] alwaysSend
            (.ok (48, timeAnswerEnvelope)) [9]).2 = .ok ⟨1700000000⟩
        ∧ ∃ env qid, receiveStep 8192 (.ok (48, timeAnswerEnvelope)) = .ok env
            ∧ deserializeMessage env
                = some (.answer qid (liteQuery decodeCurrentTime zeroToken [] alwaysSend
                    (.ok (48, timeAnswerEnvelope)) [9]).2)) :=
  ⟨by decide,
   c10_buffer_overwritten decodeCurrentTime zeroToken [] alwaysSend
     (.ok (48, timeAnswerEnvelope)) [9] [] ⟨1700000000⟩ (by decide)⟩
